import Mathlib

/-!
Verification of the matching and allocation engine of the mvpsnapshot
repository, shallowly embedded in Lean 4.

Source layout:
* `src/GeneratedDocumentsList.tsx` (second document, `OptimizeMatching`):
  `calculateTicketPrice` and `handleOptimize` — the Pricing Calculator and
  the Ticket Matching Optimizer.
* `src/lib/templateEngine.ts`: the `basis_with_payable` display helper.
* `src/hedging/PriceFixingDialog.tsx`: `handleSubmit` (validation),
  `fixingMutation` (allocation commit) and `netExposure`
  (Exposure Aggregator, in `HedgingSummarySection`).

Modelling conventions:
* JavaScript numbers are modelled as exact rationals `ℚ`; floating-point
  rounding is ignored (all claims are about exact small decimal values).
  `NaN` and the infinities, which the code can produce through
  `parseFloat` and division, are modelled explicitly by `JsVal`.
  JavaScript `-0` is identified with `0` (the two compare equal in every
  comparison the code performs).
* Nullable / possibly-undefined fields are `Option ℚ` (or `Option String`);
  `none` is `null`/`undefined`.  JavaScript truthiness of a numeric field
  (`if (x)`) is `truthy`: present and nonzero.
* Fallible environment writes (Supabase inserts/updates) are modelled by a
  failure oracle: write number `k` fails iff `oracle k = true`.  Each
  Supabase call is an independent auto-committed statement; a failed call
  writes nothing, and a thrown error stops the JavaScript function without
  undoing earlier calls (the code contains no transaction or compensation
  logic).
-/

namespace Mvp

/-- JavaScript truthiness of a nullable numeric field: `undefined`/`null`
and `0` are falsy (`NaN` is also falsy; a stored `NaN` field does not occur
in the flows modelled here). -/
def truthy : Option ℚ → Bool
  | none => false
  | some x => decide (x ≠ 0)

/-- A trade ticket row, with the fields read by `calculateTicketPrice` and
`handleOptimize` (src/GeneratedDocumentsList.tsx). -/
structure Ticket where
  id : String
  pricing_type : String
  signed_price : Option ℚ
  lme_price : Option ℚ
  payable_percent : Option ℚ
  premium_discount : Option ℚ
  quantity : Option ℚ
  incoterms : Option String
  metal_form : Option String
  isri_grade : Option String
  ship_from : Option String
  ship_to : Option String
deriving DecidableEq, Repr

/-- `calculateTicketPrice` (src/GeneratedDocumentsList.tsx, lines 191-206):
Fixed → `signed_price || 0`; Formula → `lme_price * payable_percent` when
both are truthy, else 0; Index → `lme_price + premium_discount` when both
are truthy, else 0; any other mode → 0.  Note: the Formula branch performs
no normalization of `payable_percent`. -/
def calculateTicketPrice (t : Ticket) : ℚ :=
  if t.pricing_type = "Fixed" then
    t.signed_price.getD 0
  else if t.pricing_type = "Formula" then
    if truthy t.lme_price && truthy t.payable_percent then
      t.lme_price.getD 0 * t.payable_percent.getD 0
    else 0
  else if t.pricing_type = "Index" then
    if truthy t.lme_price && truthy t.premium_discount then
      t.lme_price.getD 0 + t.premium_discount.getD 0
    else 0
  else 0

/-- The numeric percent computed by the `basis_with_payable` branch of
`TemplateEngine.resolveValue` (src/lib/templateEngine.ts, lines 156-167):
`payablePercent > 1.5 ? payablePercent : payablePercent * 100` — a stored
value `> 1.5` is displayed as-is (already a percent), a stored fraction
`≤ 1.5` is multiplied by 100 for display. -/
def basisPayablePercentValue (payablePercent : ℚ) : ℚ :=
  if payablePercent > 3 / 2 then payablePercent else payablePercent * 100

/-- Accumulate decimal digit characters into a natural number. -/
def digitsVal : List Char → ℕ → ℕ
  | [], acc => acc
  | c :: cs, acc => digitsVal cs (acc * 10 + (c.toNat - 48))

/-- Character-level phase of `parseFloat`: reads an optional sign, integer
digits and optional fractional digits from the front of the string and
returns (negative sign?, integer value, fraction value, fraction length),
or `none` when no digit is found. -/
def jsParseFloatAux (s : String) : Option (Bool × ℕ × ℕ × ℕ) :=
  let p : Bool × List Char :=
    match s.data with
    | '-' :: rest => (true, rest)
    | '+' :: rest => (false, rest)
    | cs => (false, cs)
  let intPart : List Char × List Char := p.2.span (fun c => c.isDigit)
  let fracPart : List Char :=
    match intPart.2 with
    | '.' :: rest => (rest.span (fun c => c.isDigit)).1
    | _ => []
  if intPart.1 = [] ∧ fracPart = [] then none
  else some (p.1, digitsVal intPart.1 0, digitsVal fracPart 0, fracPart.length)

/-- JavaScript `parseFloat` restricted to the plain decimal literals the
dialogs' numeric inputs produce: optional sign, integer digits, optional
fractional digits (at least one digit overall); any trailing characters are
ignored, exactly as `parseFloat` ignores trailing garbage.  A string with
no leading numeric prefix (including `""`) gives `NaN`, modelled as `none`
(this restriction of `parseFloat` never returns an infinity). -/
def jsParseFloat (s : String) : Option ℚ :=
  (jsParseFloatAux s).map (fun r =>
    (if r.1 then (-1 : ℚ) else 1) *
      ((r.2.1 : ℚ) + (r.2.2.1 : ℚ) / (10 : ℚ) ^ r.2.2.2))

/-- A JavaScript number: a finite rational, an infinity, or `NaN`. -/
inductive JsVal where
  | nan : JsVal
  | posInf : JsVal
  | negInf : JsVal
  | fin : ℚ → JsVal
deriving DecidableEq, Repr

/-- JavaScript division of finite values: `0/0 = NaN`, `x/0 = ±Infinity`
for `x ≠ 0`, otherwise exact. -/
def jsDiv (a b : ℚ) : JsVal :=
  if b = 0 then
    if a = 0 then .nan else if a > 0 then .posInf else .negInf
  else .fin (a / b)

/-- JavaScript `>=` on numbers: any comparison with `NaN` is false. -/
def jsGe : JsVal → JsVal → Bool
  | .nan, _ => false
  | _, .nan => false
  | .posInf, _ => true
  | _, .posInf => false
  | .negInf, .negInf => true
  | .negInf, _ => false
  | .fin _, .negInf => true
  | .fin a, .fin b => decide (a ≥ b)

/-- JavaScript subtraction extended to `NaN` and infinities. -/
def jsSubV : JsVal → JsVal → JsVal
  | .nan, _ => .nan
  | _, .nan => .nan
  | .posInf, .posInf => .nan
  | .posInf, _ => .posInf
  | .negInf, .negInf => .nan
  | .negInf, _ => .negInf
  | .fin _, .posInf => .negInf
  | .fin _, .negInf => .posInf
  | .fin a, .fin b => .fin (a - b)

/-- JavaScript division extended to `NaN` and infinities (`-0` identified
with `0`, so `x / ±Infinity = 0` and an infinity divided by a finite value
keeps the sign of the dividend when the divisor is `0`). -/
def jsDivV : JsVal → JsVal → JsVal
  | .nan, _ => .nan
  | _, .nan => .nan
  | .posInf, .posInf => .nan
  | .posInf, .negInf => .nan
  | .negInf, .posInf => .nan
  | .negInf, .negInf => .nan
  | .posInf, .fin b => if b < 0 then .negInf else .posInf
  | .negInf, .fin b => if b < 0 then .posInf else .negInf
  | .fin _, .posInf => .fin 0
  | .fin _, .negInf => .fin 0
  | .fin a, .fin b => jsDiv a b

/-- `t.quantity || 0`: the remaining quantity a ticket offers the greedy
loop (`sellTicket.quantity || 0` in the source). -/
def tQty (t : Ticket) : ℚ :=
  t.quantity.getD 0

/-- The sell candidates sorted by calculated price, highest first
(`.sort((a, b) => b.calculatedPrice - a.calculatedPrice)`).  JavaScript
`Array.sort` is stable and a stable sort by a total preorder is unique, so
Mathlib's stable `insertionSort` computes the same list. -/
def sortSellsDesc (ts : List Ticket) : List Ticket :=
  ts.insertionSort (fun a b => calculateTicketPrice b ≤ calculateTicketPrice a)

/-- The buy candidates sorted by calculated price, lowest first
(`.sort((a, b) => a.calculatedPrice - b.calculatedPrice)`), stable as in
`sortSellsDesc`. -/
def sortBuysAsc (ts : List Ticket) : List Ticket :=
  ts.insertionSort (fun a b => calculateTicketPrice a ≤ calculateTicketPrice b)

/-- The greedy accumulation loop of `handleOptimize`: while the remaining
target is `> 0`, take `min(remainingQty, ticket.quantity || 0)` from the
next ticket and push the ticket with its allocation (every visited ticket
is pushed, zero-quantity ones included).  Returns the selected
(ticket, allocation) list and the final remaining quantity. -/
def greedyLoop (remaining : ℚ) : List Ticket → List (Ticket × ℚ) × ℚ
  | [] => ([], remaining)
  | t :: ts =>
    if remaining ≤ 0 then ([], remaining)
    else
      let alloc := min remaining (tQty t)
      let rest := greedyLoop (remaining - alloc) ts
      ((t, alloc) :: rest.1, rest.2)

/-- The quantity-weighted price sum of a greedy selection:
`Σ calculateTicketPrice(t) * t.allocQty`. -/
def weightedSum (sel : List (Ticket × ℚ)) : ℚ :=
  (sel.map (fun p => calculateTicketPrice p.1 * p.2)).sum

/-- `incoterms || "—"`: `null`, `undefined` and `""` all display as a dash. -/
def orDash : Option String → String
  | none => "—"
  | some s => if s = "" then "—" else s

/-- The order row `handleOptimize` inserts (src/GeneratedDocumentsList.tsx,
lines 319-336).  `buyer`/`seller` are the comma-joined selected ticket ids;
the metadata fields come from the FIRST selected buy (resp. sell) ticket. -/
structure Order where
  id : String
  buyer : String
  seller : String
  commodity_type : String
  metal_form : Option String
  isri_grade : Option String
  allocated_quantity_mt : JsVal
  buy_price : JsVal
  sell_price : JsVal
  margin : JsVal
  status : String
  transaction_type : String
  ship_to : Option String
  ship_from : Option String
  product_details : String
deriving DecidableEq, Repr

/-- Build the order row from the selected buy and sell tickets (in
selection order) and the already-computed quantity and average prices.
`margin = (avgSellPrice - avgBuyPrice) / avgBuyPrice` in JavaScript
arithmetic. -/
def mkOrder (orderId commodity : String) (selBuys selSells : List Ticket)
    (qty avgBuy avgSell : JsVal) : Order :=
  { id := orderId
    buyer := String.intercalate "," (selBuys.map (fun t => t.id))
    seller := String.intercalate "," (selSells.map (fun t => t.id))
    commodity_type := commodity
    metal_form := selBuys.head?.bind (fun t => t.metal_form)
    isri_grade := selBuys.head?.bind (fun t => t.isri_grade)
    allocated_quantity_mt := qty
    buy_price := avgBuy
    sell_price := avgSell
    margin := jsDivV (jsSubV avgSell avgBuy) avgBuy
    status := "Allocated"
    transaction_type := "B2B"
    ship_to := selSells.head?.bind (fun t => t.ship_to)
    ship_from := selBuys.head?.bind (fun t => t.ship_from)
    product_details :=
      orDash (selBuys.head?.bind (fun t => t.incoterms)) ++ " / " ++
        orDash (selSells.head?.bind (fun t => t.incoterms)) }

/-- Outcome of one `handleOptimize` run. -/
inductive OptimizeResult where
  | inputError : OptimizeResult
  | noTickets : OptimizeResult
  | insufficientSell : OptimizeResult
  | insufficientBuy : OptimizeResult
  | marginError : OptimizeResult
  | orderCreated : Order → OptimizeResult
deriving DecidableEq, Repr

/-- `handleOptimize` (src/GeneratedDocumentsList.tsx, lines 224-339), with
the two ticket fetches modelled by the `buyTickets`/`sellTickets`
parameters (the rows the store returns) and the random order id by the
`orderId` parameter.

Stages, exactly as in the source: (1) reject only an EMPTY commodity or
quantity string; (2) parse the target; (3) after the fetch, reject empty
pools; (4) sort and run the greedy loop on sells, rejecting if the
remaining target stays `> 0`; (5) same for buys; (6) reject when
`avgBuyPrice >= avgSellPrice` (false for `NaN` averages); (7) insert the
order.  A `NaN` target (unparsable non-empty string) never breaks or
fails the loops: every ticket is pushed with a `NaN` allocation and an
order with `NaN` quantity and prices is created. -/
def handleOptimize (commodity quantityStr orderId : String)
    (buyTickets sellTickets : List Ticket) : OptimizeResult :=
  if commodity = "" ∨ quantityStr = "" then .inputError
  else if buyTickets = [] ∨ sellTickets = [] then .noTickets
  else
    match jsParseFloat quantityStr with
    | none =>
      .orderCreated (mkOrder orderId commodity (sortBuysAsc buyTickets)
        (sortSellsDesc sellTickets) .nan .nan .nan)
    | some targetQty =>
      let sel := greedyLoop targetQty (sortSellsDesc sellTickets)
      if sel.2 > 0 then .insufficientSell
      else
        let selB := greedyLoop targetQty (sortBuysAsc buyTickets)
        if selB.2 > 0 then .insufficientBuy
        else
          let avgBuy := jsDiv (weightedSum selB.1) targetQty
          let avgSell := jsDiv (weightedSum sel.1) targetQty
          if jsGe avgBuy avgSell then .marginError
          else
            .orderCreated (mkOrder orderId commodity (selB.1.map Prod.fst)
              (sel.1.map Prod.fst) (.fin targetQty) avgBuy avgSell)

/-! ## Exposure Aggregator (`HedgingSummarySection`, src/hedging/PriceFixingDialog.tsx) -/

/-- A hedge execution row as read by the Exposure Aggregator. -/
structure LinkedHedge where
  id : String
  direction : String
  quantity_mt : ℚ
  open_quantity_mt : Option ℚ
deriving DecidableEq, Repr

/-- `h.open_quantity_mt ?? h.quantity_mt`: the execution's open quantity at
read time (a never-allocated execution stores `null` and its open quantity
is its trade quantity). -/
def hedgeQty (h : LinkedHedge) : ℚ :=
  h.open_quantity_mt.getD h.quantity_mt

/-- The `reduce` of `netExposure`:
`Σ (direction === "Buy" ? qty : -qty)` over the linked executions. -/
def netValue (hs : List LinkedHedge) : ℚ :=
  hs.foldl (fun sum h => sum + (if h.direction = "Buy" then hedgeQty h else -hedgeQty h)) 0

/-- The label of the net-position badge. -/
inductive ExposureLabel where
  | flat : ExposureLabel
  | long : ℚ → ExposureLabel
  | short : ℚ → ExposureLabel
deriving DecidableEq, Repr

/-- `netExposure` (src/hedging/PriceFixingDialog.tsx, lines 657-670):
value and label of the net position; an empty list short-circuits to Flat,
otherwise `|net| < 0.01` is Flat (reported value 0), `net > 0` is Long and
the rest is Short with magnitude `|net|`. -/
def netExposure (hs : List LinkedHedge) : ℚ × ExposureLabel :=
  if hs = [] then (0, .flat)
  else if |netValue hs| < 1 / 100 then (0, .flat)
  else if netValue hs > 0 then (netValue hs, .long (netValue hs))
  else (netValue hs, .short |netValue hs|)

/-! ## Allocation Engine (`PriceFixingDialog`, src/hedging/PriceFixingDialog.tsx) -/

/-- The view of an eligible hedge used by the dialog (`hedgesWithOpenQty`):
id, open quantity (`open_quantity_mt ?? quantity_mt`), executed price and
direction. -/
structure HedgeView where
  id : String
  openQty : ℚ
  executed_price : ℚ
  direction : String
deriving DecidableEq, Repr

/-- A `hedge_execution` row as mutated by the commit. -/
structure ExecRow where
  id : String
  quantity_mt : ℚ
  open_quantity_mt : Option ℚ
  status : String
  closed_price : Option ℚ
  closed_at : Option String
deriving DecidableEq, Repr

/-- A `pricing_fixing` row as inserted by the commit. -/
structure FixingRow where
  id : ℕ
  level : String
  quantity_mt : ℚ
  final_price : ℚ
deriving DecidableEq, Repr

/-- A `hedge_link` row as inserted by the commit. -/
structure LinkRow where
  hedge_execution_id : String
  link_level : String
  allocated_quantity_mt : ℚ
  exec_price : ℚ
  fixing_price : ℚ
  fixing_id : ℕ
deriving DecidableEq, Repr

/-- The persistent rows touched by one allocation commit. -/
structure DbState where
  fixings : List FixingRow
  links : List LinkRow
  execs : List ExecRow
deriving DecidableEq, Repr

/-- `parseFloat(allocations[hedgeId]) || 0`: the requested allocation for a
hedge id — `0` when the id has no entry or the entry does not parse. -/
def allocValOf (allocs : List (String × String)) (id : String) : ℚ :=
  match allocs.find? (fun p => p.1 = id) with
  | none => 0
  | some p => (jsParseFloat p.2).getD 0

/-- `totalAllocation`: the sum of `parseFloat(val) || 0` over the
allocation entries whose hedge is selected
(src/hedging/PriceFixingDialog.tsx, lines 170-172). -/
def totalAllocationOf (allocs : List (String × String)) (selectedIds : List String) : ℚ :=
  ((allocs.filter (fun p => p.1 ∈ selectedIds)).map
    (fun p => (jsParseFloat p.2).getD 0)).sum

/-- The fields written by the `hedge_execution` update of the commit
(src/hedging/PriceFixingDialog.tsx, lines 241-257):
`newOpenQty = hedge.openQty - allocQty`; open quantity becomes
`max(0, newOpenQty)`; status `CLOSED` when `newOpenQty <= 0`, else
`PARTIALLY_CLOSED`; `closed_price`/`closed_at` are set only when
`newOpenQty <= 0` (price to the parsed fixing price, time to now). -/
structure ExecUpdate where
  open_quantity_mt : ℚ
  status : String
  closed_price : Option ℚ
  closed_at : Option String
deriving DecidableEq, Repr

/-- Compute the execution update for one allocation. -/
def updateHedgeExecution (openQty allocQty fixingPrice : ℚ) (now : String) : ExecUpdate :=
  let newOpenQty := openQty - allocQty
  { open_quantity_mt := max 0 newOpenQty
    status := if newOpenQty ≤ 0 then "CLOSED" else "PARTIALLY_CLOSED"
    closed_price := if newOpenQty ≤ 0 then some fixingPrice else none
    closed_at := if newOpenQty ≤ 0 then some now else none }

/-- The inputs of one `fixingMutation` run: dialog level, selected hedge
ids (in `Object.keys` order), the allocation input strings, the
`hedgesWithOpenQty` view, the parsed fixing price (`parseFloat` of a
validated input), and the wall-clock timestamp. -/
structure FixingInput where
  level : String
  selectedIds : List String
  allocs : List (String × String)
  hedges : List HedgeView
  fixingPrice : ℚ
  now : String
deriving Repr

/-- Apply an execution update to the row with the given id. -/
def applyExecUpdate (execs : List ExecRow) (id : String) (u : ExecUpdate) : List ExecRow :=
  execs.map (fun e =>
    if e.id = id then
      { e with open_quantity_mt := some u.open_quantity_mt
               status := u.status
               closed_price := u.closed_price
               closed_at := u.closed_at }
    else e)

/-- The per-hedge loop of `fixingMutation` (src/hedging/PriceFixingDialog.tsx,
lines 218-258), with write number `k` failing iff `oracle k`.  For each
selected id: an allocation `≤ 0` (or an unknown hedge id) is skipped with
no write; otherwise a `hedge_link` insert and then a `hedge_execution`
update run as two independent auto-committed statements.  A failed
statement writes nothing and raises: the function stops and the state
keeps every earlier write (the source has no transaction or rollback).
Returns the final state and whether the run completed. -/
def runLinks (oracle : ℕ → Bool) (inp : FixingInput) (fixingId : ℕ) :
    List String → ℕ → DbState → DbState × Bool
  | [], _, st => (st, true)
  | id :: rest, k, st =>
    let allocQty := allocValOf inp.allocs id
    if allocQty ≤ 0 then runLinks oracle inp fixingId rest k st
    else
      match inp.hedges.find? (fun h => h.id = id) with
      | none => runLinks oracle inp fixingId rest k st
      | some h =>
        if oracle k then (st, false)
        else
          let st1 : DbState :=
            { st with links := st.links ++
                [{ hedge_execution_id := id
                   link_level := inp.level
                   allocated_quantity_mt := allocQty
                   exec_price := h.executed_price
                   fixing_price := inp.fixingPrice
                   fixing_id := fixingId }] }
          if oracle (k + 1) then (st1, false)
          else
            let u := updateHedgeExecution h.openQty allocQty inp.fixingPrice inp.now
            let st2 : DbState := { st1 with execs := applyExecUpdate st1.execs id u }
            runLinks oracle inp fixingId rest (k + 2) st2

/-- `fixingMutation.mutationFn`: insert the `pricing_fixing` row (write 0)
with `quantity_mt = totalAllocation`, then run the per-hedge loop.  A
failed fixing insert leaves the state untouched; a later failure keeps the
fixing row and every earlier per-hedge write. -/
def runFixingMutation (oracle : ℕ → Bool) (inp : FixingInput) (st : DbState) :
    DbState × Bool :=
  if oracle 0 then (st, false)
  else
    let fixingId := st.fixings.length
    let st1 : DbState :=
      { st with fixings := st.fixings ++
          [{ id := fixingId
             level := inp.level
             quantity_mt := totalAllocationOf inp.allocs inp.selectedIds
             final_price := inp.fixingPrice }] }
    runLinks oracle inp fixingId inp.selectedIds 1 st1

/-- Outcome of the `handleSubmit` validation gate. -/
inductive SubmitResult where
  | errNoAllocation : SubmitResult
  | errExceedsPhysical : SubmitResult
  | errAllocExceedsOpen : SubmitResult
  | errPrice : SubmitResult
  | proceed : SubmitResult
deriving DecidableEq, Repr

/-- `allocationErrors` is non-empty: some selected allocation entry parses
to a value strictly greater than its hedge's open quantity
(src/hedging/PriceFixingDialog.tsx, lines 178-189). -/
def allocationErrorsExist (allocs : List (String × String)) (selectedIds : List String)
    (hedges : List HedgeView) : Bool :=
  allocs.any (fun p =>
    decide (p.1 ∈ selectedIds) &&
      match hedges.find? (fun h => h.id = p.1) with
      | none => false
      | some h => decide ((jsParseFloat p.2).getD 0 > h.openQty))

/-- `!fixingPrice || parseFloat(fixingPrice) <= 0`: the fixing-price input
is rejected when empty or parsing to a value `≤ 0` (an unparsable non-empty
string gives `NaN`, and `NaN <= 0` is false, so it passes). -/
def fixingPriceInvalid (s : String) : Bool :=
  (s = "") ||
    match jsParseFloat s with
    | none => false
    | some x => decide (x ≤ 0)

/-- `handleSubmit` (src/hedging/PriceFixingDialog.tsx, lines 291-309): the
four checks, in source order; only when all pass is `fixingMutation`
invoked (`proceed`). -/
def handleSubmit (allocs : List (String × String)) (selectedIds : List String)
    (hedges : List HedgeView) (availableUnfixedQty : ℚ) (priceStr : String) :
    SubmitResult :=
  let total := totalAllocationOf allocs selectedIds
  if ¬(total > 0) then .errNoAllocation
  else if total > availableUnfixedQty then .errExceedsPhysical
  else if allocationErrorsExist allocs selectedIds hedges then .errAllocExceedsOpen
  else if fixingPriceInvalid priceStr then .errPrice
  else .proceed

/-! ## Concrete sample data used by witnesses and counterexamples -/

/-- A Fixed-price ticket with the given signed price and quantity. -/
def fixedTicket (i : String) (p q : ℚ) : Ticket :=
  { id := i, pricing_type := "Fixed", signed_price := some p, lme_price := none,
    payable_percent := none, premium_discount := none, quantity := some q,
    incoterms := none, metal_form := none, isri_grade := none,
    ship_from := none, ship_to := none }

/-- A Fixed-price ticket carrying order metadata. -/
def taggedTicket (i : String) (p q : ℚ) (inco mf sf st : Option String) : Ticket :=
  { id := i, pricing_type := "Fixed", signed_price := some p, lme_price := none,
    payable_percent := none, premium_discount := none, quantity := some q,
    incoterms := inco, metal_form := mf, isri_grade := none,
    ship_from := sf, ship_to := st }

/-- A Formula-mode ticket with the given reference price and payable
percent. -/
def formulaTicket (i : String) (lme pay : Option ℚ) (q : ℚ) : Ticket :=
  { id := i, pricing_type := "Formula", signed_price := none, lme_price := lme,
    payable_percent := pay, premium_discount := none, quantity := some q,
    incoterms := none, metal_form := none, isri_grade := none,
    ship_from := none, ship_to := none }

/-- One open Buy hedge of 40 MT as seen by the dialog. -/
def c1hedge : HedgeView := ⟨"H1", 40, 2300, "Buy"⟩

/-- The matching `hedge_execution` row. -/
def c1exec : ExecRow := ⟨"H1", 40, some 40, "OPEN", none, none⟩

/-- A commit of 15 MT against that hedge at fixing price 9500. -/
def c1input : FixingInput := ⟨"ORDER", ["H1"], [("H1", "15")], [c1hedge], 9500, "2026-01-02"⟩

/-- Store with no fixings or links and the one execution. -/
def c1state : DbState := ⟨[], [], [c1exec]⟩

/-- Failure schedule: write 1 — the `hedge_link` insert — fails. -/
def c1oracle : ℕ → Bool := fun k => decide (k = 1)

/-- Two open hedges of 10 MT each. -/
def c4hedges : List HedgeView := [⟨"h1", 10, 2300, "Buy"⟩, ⟨"h2", 10, 2350, "Buy"⟩]

/-- Allocation inputs `5` and `-2`. -/
def c4allocs : List (String × String) := [("h1", "5"), ("h2", "-2")]

/-- Both hedges selected. -/
def c4selected : List String := ["h1", "h2"]

/-- The commit input corresponding to `c4allocs`. -/
def c4input : FixingInput := ⟨"ORDER", c4selected, c4allocs, c4hedges, 9500, "2026-01-02"⟩

/-- Store holding the two execution rows. -/
def c4state : DbState :=
  ⟨[], [], [⟨"h1", 10, some 10, "OPEN", none, none⟩, ⟨"h2", 10, some 10, "OPEN", none, none⟩]⟩

/-- A commit whose single selected hedge has a negative allocation input. -/
def c4inputSkip : FixingInput :=
  ⟨"ORDER", ["h9"], [("h9", "-3")], [⟨"h9", 10, 2300, "Buy"⟩], 9500, "2026-01-02"⟩

/-! ## Helper lemmas -/

/-- The empty string parses to `NaN`. -/
theorem jsParseFloat_empty : jsParseFloat "" = none := rfl

/-- A non-positive remaining target stops the greedy loop at once. -/
theorem greedyLoop_nonpos (ts : List Ticket) (r : ℚ) (hr : r ≤ 0) :
    greedyLoop r ts = ([], r) := by
  cases ts with
  | nil => rfl
  | cons t ts => simp [greedyLoop, hr]

/-- When every candidate quantity is non-negative and their total is below
the remaining target, the greedy loop ends with a positive remaining
target (the insufficient-liquidity condition). -/
theorem greedyLoop_remaining_pos (ts : List Ticket) (r : ℚ)
    (hnn : ∀ t ∈ ts, 0 ≤ tQty t) (hlt : (ts.map tQty).sum < r) :
    0 < (greedyLoop r ts).2 := by
  induction ts generalizing r with
  | nil => simpa [greedyLoop] using hlt
  | cons t ts ih =>
    have hq : 0 ≤ tQty t := hnn t (List.mem_cons_self t ts)
    have hS : 0 ≤ (ts.map tQty).sum :=
      List.sum_nonneg (by
        intro x hx
        obtain ⟨u, hu, rfl⟩ := List.mem_map.mp hx
        exact hnn u (List.mem_cons_of_mem t hu))
    have hsum : tQty t + (ts.map tQty).sum < r := by simpa using hlt
    have hrpos : 0 < r := lt_of_le_of_lt (by linarith) hsum
    have hqr : tQty t < r := by linarith
    have hmin : min r (tQty t) = tQty t := min_eq_right hqr.le
    have hrec : (ts.map tQty).sum < r - tQty t := by linarith
    simp only [greedyLoop, if_neg (not_le.mpr hrpos), hmin]
    exact ih (r - tQty t) (fun u hu => hnn u (List.mem_cons_of_mem t hu)) hrec

/-- A zero-quantity ticket reached while the target is unfilled is pushed
with allocation `0` and changes neither the rest of the selection nor the
final remaining target. -/
theorem greedyLoop_zero_qty (t : Ticket) (ts : List Ticket) (r : ℚ)
    (hr : 0 < r) (hq : tQty t = 0) :
    greedyLoop r (t :: ts) = ((t, 0) :: (greedyLoop r ts).1, (greedyLoop r ts).2) := by
  have hmin : min r (tQty t) = 0 := by rw [hq]; exact min_eq_right hr.le
  simp [greedyLoop, if_neg (not_le.mpr hr), hmin]

/-- Folding the running net into an initial accumulator. -/
theorem netValue_foldl_acc (hs : List LinkedHedge) (s : ℚ) :
    hs.foldl (fun sum h => sum + (if h.direction = "Buy" then hedgeQty h else -hedgeQty h)) s
      = s + (hs.map (fun h => if h.direction = "Buy" then hedgeQty h else -hedgeQty h)).sum := by
  induction hs generalizing s with
  | nil => simp
  | cons h hs ih => simp [List.foldl_cons, ih]; ring

/-- `netValue` is the signed sum of open quantities. -/
theorem netValue_eq_sum (hs : List LinkedHedge) :
    netValue hs
      = (hs.map (fun h => if h.direction = "Buy" then hedgeQty h else -hedgeQty h)).sum := by
  simpa using netValue_foldl_acc hs 0

/-- The total quantity of a pool is invariant under the price sorts. -/
theorem sum_tQty_sortSellsDesc (ts : List Ticket) :
    ((sortSellsDesc ts).map tQty).sum = (ts.map tQty).sum :=
  ((List.perm_insertionSort _ ts).map tQty).sum_eq

/-- The total quantity of a pool is invariant under the price sorts. -/
theorem sum_tQty_sortBuysAsc (ts : List Ticket) :
    ((sortBuysAsc ts).map tQty).sum = (ts.map tQty).sum :=
  ((List.perm_insertionSort _ ts).map tQty).sum_eq

/-- A commit loop in which every selected allocation is non-positive
performs no write at all (each such hedge is skipped before any oracle
consultation). -/
theorem runLinks_skip (oracle : ℕ → Bool) (inp : FixingInput) (fixingId : ℕ)
    (ids : List String) (k : ℕ) (st : DbState) :
    (∀ id ∈ ids, allocValOf inp.allocs id ≤ 0) →
      runLinks oracle inp fixingId ids k st = (st, true) := by
  induction ids with
  | nil => intro _; rfl
  | cons id rest ih =>
    intro hskip
    have h := hskip id (List.mem_cons_self id rest)
    simp only [runLinks, if_pos h]
    exact ih (fun i hi => hskip i (List.mem_cons_of_mem id hi))

/-! ## Claim C1 — commit atomicity -/

/-- C1: the claim demands that a failure after the `pricing_fixing` insert
roll back every prior write of the commit.  The code has no transaction:
on the concrete commit `c1input` over `c1state`, when the `hedge_link`
insert (write 1) fails, the run errors out yet the store keeps the
freshly inserted `pricing_fixing` row with NO hedge link and an unchanged
execution — a post-commit state with a fixing and no links, which the
claim says is unreachable. -/
theorem C1_fixing_persists_when_link_insert_fails :
    (runFixingMutation c1oracle c1input c1state).2 = false
    ∧ (runFixingMutation c1oracle c1input c1state).1.fixings
      = [{ id := 0, level := "ORDER", quantity_mt := 15, final_price := 9500 }]
    ∧ (runFixingMutation c1oracle c1input c1state).1.links = []
    ∧ (runFixingMutation c1oracle c1input c1state).1.execs = c1state.execs
    ∧ (runFixingMutation c1oracle c1input c1state).1 ≠ c1state := by
  have h15 : jsParseFloatAux "15" = some (false, 15, 0, 0) := by decide
  have hrun : runFixingMutation c1oracle c1input c1state
      = (⟨[{ id := 0, level := "ORDER", quantity_mt := 15, final_price := 9500 }],
          [], [c1exec]⟩, false) := by
    simp [runFixingMutation, runLinks, c1oracle, c1input, c1state, c1hedge,
      totalAllocationOf, allocValOf, jsParseFloat, h15, List.find?]
  rw [hrun]
  refine ⟨rfl, rfl, rfl, rfl, ?_⟩
  simp [c1state]

/-! ## Claim C2 — Formula pricing normalization -/

/-- C2 counterexample: a Formula ticket with reference price 100 and
payable percent 57 prices at `5700 = 100 * 57`, not at the claimed
`0.57 * 100 = 57` — `calculateTicketPrice` performs no payable
normalization. -/
theorem C2_payable_not_normalized_cex :
    calculateTicketPrice (formulaTicket "F1" (some 100) (some 57) 10) = 5700
    ∧ calculateTicketPrice (formulaTicket "F1" (some 100) (some 57) 10) ≠ 57 := by
  constructor
  · simp [calculateTicketPrice, truthy, formulaTicket]
    norm_num
  · simp [calculateTicketPrice, truthy, formulaTicket]

/-- C2 amended: for a Formula ticket with both fields present and nonzero
the Pricing Calculator returns reference price times the RAW stored
payable value, with no normalization; the `> 1.5` normalization exists
only in the `basis_with_payable` display helper, which multiplies a
stored fraction `≤ 1.5` by 100 for display and shows a value `> 1.5`
as-is. -/
theorem C2_amended_raw_multiply (t : Ticket) (P p : ℚ)
    (hty : t.pricing_type = "Formula") (hl : t.lme_price = some P)
    (hpp : t.payable_percent = some p) (hP : P ≠ 0) (hp : p ≠ 0) :
    calculateTicketPrice t = P * p
    ∧ (p ≤ 3 / 2 → basisPayablePercentValue p = p * 100)
    ∧ (3 / 2 < p → basisPayablePercentValue p = p) := by
  refine ⟨?_, ?_, ?_⟩
  · simp [calculateTicketPrice, hty, truthy, hl, hpp, hP, hp]
  · intro hle
    simp [basisPayablePercentValue, not_lt.mpr hle]
  · intro hgt
    simp [basisPayablePercentValue, hgt]

/-- Witness for the amended C2 at reference price 100 and payable 57. -/
theorem C2_amended_raw_multiply_witness :
    calculateTicketPrice (formulaTicket "F2" (some 100) (some 57) 10) = 100 * 57
    ∧ ((3 : ℚ) / 2 < 57 ∧ basisPayablePercentValue 57 = 57) :=
  ⟨(C2_amended_raw_multiply (formulaTicket "F2" (some 100) (some 57) 10) 100 57
      (by rfl) (by rfl) (by rfl) (by norm_num) (by norm_num)).1,
    by norm_num,
    (C2_amended_raw_multiply (formulaTicket "F2" (some 100) (some 57) 10) 100 57
      (by rfl) (by rfl) (by rfl) (by norm_num) (by norm_num)).2.2 (by norm_num)⟩

/-! ## Claim C3 — optimizer result order and margin -/

/-- C3 counterexample: with a Buy ticket at signed price `-10` and a Sell
ticket at `5` (average sell strictly above average buy) the optimizer
creates the order, but its margin `(5 - (-10)) / (-10) = -3/2` is
negative, refuting the claimed `margin > 0`. -/
theorem C3_negative_margin_cex :
    handleOptimize "Copper" "40" "33334" [fixedTicket "B1" (-10) 40] [fixedTicket "S1" 5 40]
      = .orderCreated (mkOrder "33334" "Copper" [fixedTicket "B1" (-10) 40]
          [fixedTicket "S1" 5 40] (.fin 40) (.fin (-10)) (.fin 5))
    ∧ (mkOrder "33334" "Copper" [fixedTicket "B1" (-10) 40] [fixedTicket "S1" 5 40]
        (.fin 40) (.fin (-10)) (.fin 5)).margin = .fin (-(3 / 2)) := by
  have h : jsParseFloatAux "40" = some (false, 40, 0, 0) := by decide
  constructor
  · simp only [handleOptimize, jsParseFloat, h]
    norm_num [sortSellsDesc, sortBuysAsc, List.insertionSort, List.orderedInsert,
      calculateTicketPrice, truthy, greedyLoop, tQty, weightedSum, jsDiv, jsGe, fixedTicket]
    simp
  · norm_num [mkOrder, jsSubV, jsDivV, jsDiv]

/-- C3 amended: for a pool covered by the greedy selection on both sides
with target `Q > 0`, when the weighted sell sum exceeds the weighted buy
sum the optimizer creates exactly one order with allocated quantity
exactly `Q`, average prices `sB/Q` and `sS/Q`, and margin
`(sS/Q - sB/Q) / (sB/Q)` — positive precisely when additionally the
average buy price is positive; when average buy ≥ average sell it fails
and creates no order. -/
theorem C3_amended_order_margin (commodity quantityStr orderId : String)
    (buys sells : List Ticket) (Q sB sS : ℚ)
    (hc : commodity ≠ "") (hq : jsParseFloat quantityStr = some Q) (hQ : 0 < Q)
    (hb : buys ≠ []) (hs : sells ≠ [])
    (hcovS : (greedyLoop Q (sortSellsDesc sells)).2 ≤ 0)
    (hcovB : (greedyLoop Q (sortBuysAsc buys)).2 ≤ 0)
    (hsB : sB = weightedSum (greedyLoop Q (sortBuysAsc buys)).1)
    (hsS : sS = weightedSum (greedyLoop Q (sortSellsDesc sells)).1) :
    (sB < sS →
      handleOptimize commodity quantityStr orderId buys sells
        = .orderCreated (mkOrder orderId commodity
            ((greedyLoop Q (sortBuysAsc buys)).1.map Prod.fst)
            ((greedyLoop Q (sortSellsDesc sells)).1.map Prod.fst)
            (.fin Q) (.fin (sB / Q)) (.fin (sS / Q))))
    ∧ (sB < sS → 0 < sB →
      (mkOrder orderId commodity
          ((greedyLoop Q (sortBuysAsc buys)).1.map Prod.fst)
          ((greedyLoop Q (sortSellsDesc sells)).1.map Prod.fst)
          (.fin Q) (.fin (sB / Q)) (.fin (sS / Q))).margin
        = .fin ((sS / Q - sB / Q) / (sB / Q))
      ∧ 0 < (sS / Q - sB / Q) / (sB / Q))
    ∧ (sS ≤ sB →
      handleOptimize commodity quantityStr orderId buys sells = .marginError) := by
  have hqs : quantityStr ≠ "" := by
    intro h
    rw [h, jsParseFloat_empty] at hq
    exact Option.noConfusion hq
  have hmain : handleOptimize commodity quantityStr orderId buys sells
      = if sB / Q ≥ sS / Q then .marginError
        else .orderCreated (mkOrder orderId commodity
          ((greedyLoop Q (sortBuysAsc buys)).1.map Prod.fst)
          ((greedyLoop Q (sortSellsDesc sells)).1.map Prod.fst)
          (.fin Q) (.fin (sB / Q)) (.fin (sS / Q))) := by
    simp only [handleOptimize, hq]
    rw [if_neg (by simp [hc, hqs]), if_neg (by simp [hb, hs]),
      if_neg (not_lt.mpr hcovS), if_neg (not_lt.mpr hcovB), ← hsB, ← hsS]
    rw [show jsDiv sB Q = .fin (sB / Q) from by simp [jsDiv, hQ.ne'],
      show jsDiv sS Q = .fin (sS / Q) from by simp [jsDiv, hQ.ne']]
    simp only [jsGe]
    by_cases hcmp : sB / Q ≥ sS / Q
    · rw [if_pos (by simpa using hcmp), if_pos hcmp]
    · rw [if_neg (by simpa using hcmp), if_neg hcmp]
  refine ⟨?_, ?_, ?_⟩
  · intro hlt
    have hdlt : sB / Q < sS / Q := by gcongr
    rw [hmain, if_neg (not_le.mpr hdlt)]
  · intro hlt hpos
    have hdlt : sB / Q < sS / Q := by gcongr
    have hbpos : 0 < sB / Q := div_pos hpos hQ
    constructor
    · simp [mkOrder, jsSubV, jsDivV, jsDiv, hbpos.ne']
    · exact div_pos (sub_pos.mpr hdlt) hbpos
  · intro hle
    have hdle : sS / Q ≤ sB / Q := by gcongr
    rw [hmain, if_pos hdle]

/-- Witness for the amended C3: the spec scenario — sells 520@30 and
500@20, buy 450@40, target 40 — creates the order with quantity 40,
average buy 450, average sell 515 and positive margin. -/
theorem C3_amended_order_margin_witness :
    ((18000 : ℚ) < 20600 ∧ (0 : ℚ) < 18000)
    ∧ handleOptimize "Copper" "40" "33333"
        [fixedTicket "B1" 450 40] [fixedTicket "S1" 520 30, fixedTicket "S2" 500 20]
      = .orderCreated (mkOrder "33333" "Copper"
          ((greedyLoop 40 (sortBuysAsc [fixedTicket "B1" 450 40])).1.map Prod.fst)
          ((greedyLoop 40 (sortSellsDesc
            [fixedTicket "S1" 520 30, fixedTicket "S2" 500 20])).1.map Prod.fst)
          (.fin 40) (.fin (18000 / 40)) (.fin (20600 / 40)))
    ∧ 0 < ((20600 : ℚ) / 40 - 18000 / 40) / (18000 / 40) := by
  have happ := C3_amended_order_margin "Copper" "40" "33333"
    [fixedTicket "B1" 450 40] [fixedTicket "S1" 520 30, fixedTicket "S2" 500 20]
    40 18000 20600 (by decide)
    (by have h : jsParseFloatAux "40" = some (false, 40, 0, 0) := by decide
        simp [jsParseFloat, h])
    (by norm_num) (by simp) (by simp)
    (by norm_num [sortSellsDesc, List.insertionSort, List.orderedInsert,
      calculateTicketPrice, truthy, greedyLoop, tQty, fixedTicket])
    (by norm_num [sortBuysAsc, List.insertionSort, List.orderedInsert,
      calculateTicketPrice, truthy, greedyLoop, tQty, fixedTicket])
    (by norm_num [sortBuysAsc, List.insertionSort, List.orderedInsert,
      calculateTicketPrice, truthy, greedyLoop, tQty, weightedSum, fixedTicket])
    (by norm_num [sortSellsDesc, List.insertionSort, List.orderedInsert,
      calculateTicketPrice, truthy, greedyLoop, tQty, weightedSum, fixedTicket])
  exact ⟨⟨by norm_num, by norm_num⟩, happ.1 (by norm_num),
    (happ.2.1 (by norm_num) (by norm_num)).2⟩

/-! ## Claim C4 — allocation validation -/

/-- C4 counterexample: with allocation inputs `5` and `-2` over two
selected hedges of open quantity 10 and available unfixed quantity 4,
`handleSubmit` passes every check and proceeds to the commit although the
requested allocation `-2` is not `> 0`; the commit then inserts a fixing
of quantity `3` whose single hedge link carries quantity `5`. -/
theorem C4_negative_allocation_passes_cex :
    handleSubmit c4allocs c4selected c4hedges 4 "9500" = .proceed
    ∧ allocValOf c4allocs "h2" = -2
    ∧ (runFixingMutation (fun _ => false) c4input c4state).1.fixings
      = [{ id := 0, level := "ORDER", quantity_mt := 3, final_price := 9500 }]
    ∧ (runFixingMutation (fun _ => false) c4input c4state).1.links
      = [{ hedge_execution_id := "h1", link_level := "ORDER", allocated_quantity_mt := 5,
           exec_price := 2300, fixing_price := 9500, fixing_id := 0 }] := by
  have h5 : jsParseFloatAux "5" = some (false, 5, 0, 0) := by decide
  have h2 : jsParseFloatAux "-2" = some (true, 2, 0, 0) := by decide
  have h9500 : jsParseFloatAux "9500" = some (false, 9500, 0, 0) := by decide
  refine ⟨?_, ?_, ?_, ?_⟩
  · simp [handleSubmit, totalAllocationOf, allocationErrorsExist, fixingPriceInvalid,
      c4allocs, c4selected, c4hedges, allocValOf, jsParseFloat, h5, h2, h9500,
      List.find?, List.filter]
    try norm_num
  · simp [allocValOf, c4allocs, jsParseFloat, h2, List.find?]
    try norm_num
  · simp [runFixingMutation, runLinks, c4input, c4state, c4allocs, c4selected, c4hedges,
      totalAllocationOf, allocValOf, updateHedgeExecution, applyExecUpdate,
      jsParseFloat, h5, h2, List.find?, List.filter]
    try norm_num
  · simp [runFixingMutation, runLinks, c4input, c4state, c4allocs, c4selected, c4hedges,
      totalAllocationOf, allocValOf, updateHedgeExecution, applyExecUpdate,
      jsParseFloat, h5, h2, List.find?, List.filter]
    try norm_num

/-- C4 amended: before any write `handleSubmit` validates that the TOTAL
allocation is positive, that it does not exceed the available unfixed
quantity, that no selected allocation exceeds its hedge's open quantity,
and that the fixing-price input is non-empty and parses to a positive
value; per-allocation positivity is NOT validated — a commit whose
selected allocations are all non-positive performs no per-hedge write at
all (they are silently skipped) while still inserting the fixing with
`quantity_mt = totalAllocation`. -/
theorem C4_amended_validation (allocs : List (String × String)) (selectedIds : List String)
    (hedges : List HedgeView) (avail : ℚ) (priceStr : String)
    (inp : FixingInput) (st : DbState) :
    (handleSubmit allocs selectedIds hedges avail priceStr = .proceed →
      0 < totalAllocationOf allocs selectedIds
      ∧ totalAllocationOf allocs selectedIds ≤ avail
      ∧ allocationErrorsExist allocs selectedIds hedges = false
      ∧ fixingPriceInvalid priceStr = false)
    ∧ ((∀ id ∈ inp.selectedIds, allocValOf inp.allocs id ≤ 0) →
      runFixingMutation (fun _ => false) inp st
        = ({ st with fixings := st.fixings ++
            [{ id := st.fixings.length, level := inp.level,
               quantity_mt := totalAllocationOf inp.allocs inp.selectedIds,
               final_price := inp.fixingPrice }] }, true)) := by
  constructor
  · intro h
    simp only [handleSubmit] at h
    split_ifs at h with h1 h2 h3 h4
    all_goals simp_all [not_lt]
  · intro hskip
    simp only [runFixingMutation, Bool.false_eq_true, if_false]
    exact runLinks_skip _ inp st.fixings.length inp.selectedIds 1 _ hskip

/-- Witness for the amended C4: the `c4allocs` submission passes the four
performed checks, and a commit whose only selected allocation is `-3`
writes exactly the fixing row and nothing else. -/
theorem C4_amended_validation_witness :
    (0 < totalAllocationOf c4allocs c4selected
      ∧ totalAllocationOf c4allocs c4selected ≤ 4
      ∧ allocationErrorsExist c4allocs c4selected c4hedges = false
      ∧ fixingPriceInvalid "9500" = false)
    ∧ runFixingMutation (fun _ => false) c4inputSkip c4state
      = ({ c4state with fixings := c4state.fixings ++
          [{ id := c4state.fixings.length, level := c4inputSkip.level,
             quantity_mt := totalAllocationOf c4inputSkip.allocs c4inputSkip.selectedIds,
             final_price := c4inputSkip.fixingPrice }] }, true) := by
  have h5 : jsParseFloatAux "5" = some (false, 5, 0, 0) := by decide
  have h2 : jsParseFloatAux "-2" = some (true, 2, 0, 0) := by decide
  have h3 : jsParseFloatAux "-3" = some (true, 3, 0, 0) := by decide
  have h9500 : jsParseFloatAux "9500" = some (false, 9500, 0, 0) := by decide
  refine ⟨(C4_amended_validation c4allocs c4selected c4hedges 4 "9500" c4inputSkip c4state).1
    ?_, (C4_amended_validation c4allocs c4selected c4hedges 4 "9500" c4inputSkip c4state).2
    ?_⟩
  · simp [handleSubmit, totalAllocationOf, allocationErrorsExist, fixingPriceInvalid,
      c4allocs, c4selected, c4hedges, allocValOf, jsParseFloat, h5, h2, h9500,
      List.find?, List.filter]
    try norm_num
  · intro i hi
    simp [c4inputSkip] at hi
    subst hi
    simp [allocValOf, c4inputSkip, jsParseFloat, h3, List.find?]
    try norm_num

/-! ## Claim C5 — input validation of the optimizer -/

/-- C5 counterexample: the non-empty quantity string `"0"` parses to a
target of `0 ≤ 0`, yet the run is NOT rejected as an input error before
the ticket read — it proceeds all the way to creating an order with
allocated quantity 0 and `NaN` average prices. -/
theorem C5_zero_target_not_rejected_cex :
    handleOptimize "Copper" "0" "11111" [fixedTicket "B1" 450 40] [fixedTicket "S1" 520 30]
      = .orderCreated (mkOrder "11111" "Copper" [] [] (.fin 0) .nan .nan)
    ∧ handleOptimize "Copper" "0" "11111" [fixedTicket "B1" 450 40] [fixedTicket "S1" 520 30]
      ≠ .inputError := by
  have h : jsParseFloatAux "0" = some (false, 0, 0, 0) := by decide
  constructor
  · simp only [handleOptimize, jsParseFloat, h]
    norm_num [sortSellsDesc, sortBuysAsc, List.insertionSort, List.orderedInsert,
      calculateTicketPrice, truthy, greedyLoop, tQty, weightedSum, jsDiv, jsGe, fixedTicket]
    simp
  · simp only [handleOptimize, jsParseFloat, h]
    norm_num [sortSellsDesc, sortBuysAsc, List.insertionSort, List.orderedInsert,
      calculateTicketPrice, truthy, greedyLoop, tQty, weightedSum, jsDiv, jsGe, fixedTicket]
    simp

/-- C5 amended: the only pre-read validation rejects an EMPTY commodity or
quantity string; a non-empty quantity parsing to a target `≤ 0` is not
rejected before the ticket read.  A target of exactly `0` produces an
order with allocated quantity `0` and `NaN` average prices; a negative
target is rejected only later, by the margin check, with no order. -/
theorem C5_amended_preread (commodity quantityStr orderId : String)
    (buys sells : List Ticket) (Q : ℚ)
    (hc : commodity ≠ "") (hq : jsParseFloat quantityStr = some Q) (hQ : Q ≤ 0)
    (hb : buys ≠ []) (hs : sells ≠ []) :
    handleOptimize commodity quantityStr orderId buys sells ≠ .inputError
    ∧ (Q = 0 → handleOptimize commodity quantityStr orderId buys sells
        = .orderCreated (mkOrder orderId commodity [] [] (.fin 0) .nan .nan))
    ∧ (Q < 0 → handleOptimize commodity quantityStr orderId buys sells = .marginError) := by
  have hqs : quantityStr ≠ "" := by
    intro h
    rw [h, jsParseFloat_empty] at hq
    exact Option.noConfusion hq
  have key : ∀ hQlt : Q < 0,
      handleOptimize commodity quantityStr orderId buys sells = .marginError := by
    intro hQlt
    simp only [handleOptimize, hq]
    rw [if_neg (by simp [hc, hqs]), if_neg (by simp [hb, hs])]
    rw [greedyLoop_nonpos _ _ hQ, greedyLoop_nonpos _ _ hQ]
    rw [if_neg (not_lt.mpr hQ), if_neg (not_lt.mpr hQ)]
    have havg : jsDiv (weightedSum []) Q = .fin 0 := by
      simp [weightedSum, jsDiv, hQlt.ne]
    rw [havg]
    simp [jsGe]
  have key0 : Q = 0 → handleOptimize commodity quantityStr orderId buys sells
      = .orderCreated (mkOrder orderId commodity [] [] (.fin 0) .nan .nan) := by
    intro hQ0
    subst hQ0
    simp only [handleOptimize, hq]
    rw [if_neg (by simp [hc, hqs]), if_neg (by simp [hb, hs])]
    rw [greedyLoop_nonpos _ _ le_rfl, greedyLoop_nonpos _ _ le_rfl]
    simp [weightedSum, jsDiv, jsGe]
  refine ⟨?_, key0, key⟩
  rcases lt_or_eq_of_le hQ with hlt | heq
  · rw [key hlt]; exact fun h => OptimizeResult.noConfusion h
  · rw [key0 heq]; exact fun h => OptimizeResult.noConfusion h

/-- Witness for the amended C5: a `-5` target passes the pre-read check
and dies at the margin stage. -/
theorem C5_amended_preread_witness :
    (-5 : ℚ) < 0
    ∧ handleOptimize "Copper" "-5" "22222" [fixedTicket "B1" 450 40] [fixedTicket "S1" 520 30]
      = .marginError :=
  ⟨by norm_num,
    (C5_amended_preread "Copper" "-5" "22222" [fixedTicket "B1" 450 40]
        [fixedTicket "S1" 520 30] (-5) (by decide)
        (by have h : jsParseFloatAux "-5" = some (true, 5, 0, 0) := by decide
            simp [jsParseFloat, h])
        (by norm_num) (by simp) (by simp)).2.2 (by norm_num)⟩

/-! ## Claim C6 — hedge execution update -/

/-- C6: for a hedge execution updated during an allocation commit with
allocation quantity `a > 0` and current open quantity `o`, the stored open
quantity becomes `max 0 (o - a)`; the status becomes `CLOSED` exactly when
`o - a ≤ 0` and `PARTIALLY_CLOSED` otherwise; and the closing price (the
fixing price) and closing timestamp are populated exactly when
`o - a ≤ 0`. -/
theorem C6_exec_update (o a p : ℚ) (now : String) (_ha : 0 < a) :
    (updateHedgeExecution o a p now).open_quantity_mt = max 0 (o - a)
    ∧ ((updateHedgeExecution o a p now).status = "CLOSED" ↔ o - a ≤ 0)
    ∧ (¬ o - a ≤ 0 → (updateHedgeExecution o a p now).status = "PARTIALLY_CLOSED")
    ∧ ((updateHedgeExecution o a p now).closed_price = some p ↔ o - a ≤ 0)
    ∧ ((updateHedgeExecution o a p now).closed_at ≠ none ↔ o - a ≤ 0) := by
  by_cases h : o - a ≤ 0 <;> simp [updateHedgeExecution, h]

/-- Witness for C6: the spec scenario `trade 40, open 40, allocate 40`:
open quantity becomes `0`, status `CLOSED`, closing price set. -/
theorem C6_exec_update_witness :
    (0 : ℚ) < 40
    ∧ ((updateHedgeExecution 40 40 9500 "2026-01-01").open_quantity_mt = max 0 (40 - 40)
      ∧ ((updateHedgeExecution 40 40 9500 "2026-01-01").status = "CLOSED" ↔ (40 : ℚ) - 40 ≤ 0)
      ∧ (¬ (40 : ℚ) - 40 ≤ 0 →
        (updateHedgeExecution 40 40 9500 "2026-01-01").status = "PARTIALLY_CLOSED")
      ∧ ((updateHedgeExecution 40 40 9500 "2026-01-01").closed_price = some 9500 ↔
        (40 : ℚ) - 40 ≤ 0)
      ∧ ((updateHedgeExecution 40 40 9500 "2026-01-01").closed_at ≠ none ↔
        (40 : ℚ) - 40 ≤ 0)) :=
  ⟨by norm_num, C6_exec_update 40 40 9500 "2026-01-01" (by norm_num)⟩

/-! ## Claim C7 — insufficient liquidity -/

/-- C7: for a pool that reaches the greedy phase (both sides non-empty)
with non-negative ticket quantities, a total sell quantity below the
target fails with the insufficient-sell error, and — the sell side being
covered — a total buy quantity below the target fails with the
insufficient-buy error; in either case no order is produced and no ticket
is touched (the optimizer's failure results carry no write). -/
theorem C7_insufficient_liquidity (commodity quantityStr orderId : String)
    (buys sells : List Ticket) (Q : ℚ)
    (hc : commodity ≠ "") (hq : jsParseFloat quantityStr = some Q)
    (hb : buys ≠ []) (hs : sells ≠ []) :
    ((∀ t ∈ sells, 0 ≤ tQty t) → (sells.map tQty).sum < Q →
      handleOptimize commodity quantityStr orderId buys sells = .insufficientSell)
    ∧ ((∀ t ∈ buys, 0 ≤ tQty t) →
      (greedyLoop Q (sortSellsDesc sells)).2 ≤ 0 → (buys.map tQty).sum < Q →
      handleOptimize commodity quantityStr orderId buys sells = .insufficientBuy) := by
  have hqs : quantityStr ≠ "" := by
    intro h
    rw [h, jsParseFloat_empty] at hq
    exact Option.noConfusion hq
  constructor
  · intro hnn hsum
    have hnn' : ∀ t ∈ sortSellsDesc sells, 0 ≤ tQty t := fun t ht =>
      hnn t ((List.perm_insertionSort _ sells).mem_iff.mp ht)
    have hsum' : ((sortSellsDesc sells).map tQty).sum < Q := by
      rw [sum_tQty_sortSellsDesc]; exact hsum
    have hpos := greedyLoop_remaining_pos _ Q hnn' hsum'
    simp only [handleOptimize, hq]
    rw [if_neg (by simp [hc, hqs]), if_neg (by simp [hb, hs]), if_pos hpos]
  · intro hnn hcov hsum
    have hnn' : ∀ t ∈ sortBuysAsc buys, 0 ≤ tQty t := fun t ht =>
      hnn t ((List.perm_insertionSort _ buys).mem_iff.mp ht)
    have hsum' : ((sortBuysAsc buys).map tQty).sum < Q := by
      rw [sum_tQty_sortBuysAsc]; exact hsum
    have hpos := greedyLoop_remaining_pos _ Q hnn' hsum'
    simp only [handleOptimize, hq]
    rw [if_neg (by simp [hc, hqs]), if_neg (by simp [hb, hs]),
      if_neg (not_lt.mpr hcov), if_pos hpos]

/-- Witness for C7: 20 MT of sell liquidity against a 40 MT target fails
with the insufficient-sell error. -/
theorem C7_insufficient_liquidity_witness :
    handleOptimize "Copper" "40" "77777" [fixedTicket "B1" 450 100] [fixedTicket "S1" 520 20]
      = .insufficientSell :=
  (C7_insufficient_liquidity "Copper" "40" "77777" [fixedTicket "B1" 450 100]
      [fixedTicket "S1" 520 20] 40 (by decide)
      (by have h : jsParseFloatAux "40" = some (false, 40, 0, 0) := by decide
          simp [jsParseFloat, h])
      (by simp) (by simp)).1
    (by intro t ht; simp at ht; subst ht; simp [tQty, fixedTicket])
    (by simp [tQty, fixedTicket]; norm_num)

/-! ## Claim C8 — zero-quantity candidates -/

/-- C8 counterexample: zero-quantity tickets `B0` (sorted first on the buy
side) and `S0` (sorted first on the sell side) are NOT skipped: both
appear in the created order's comma-joined id lists, and `B0`/`S0` supply
the order's metadata (metal form from `B0`, incoterms `"FOB / DAP"` from
`B0` and `S0`). -/
theorem C8_zero_qty_selected_cex :
    handleOptimize "Copper" "40" "88888"
      [taggedTicket "B0" 1 0 (some "FOB") (some "Shredded") (some "Hamburg") none,
        taggedTicket "B1" 450 40 (some "CIF") (some "Baled") (some "Rotterdam") none]
      [taggedTicket "S0" 999 0 (some "DAP") none none (some "Shanghai"),
        taggedTicket "S1" 520 40 (some "FAS") none none (some "Busan")]
      = .orderCreated (mkOrder "88888" "Copper"
          [taggedTicket "B0" 1 0 (some "FOB") (some "Shredded") (some "Hamburg") none,
            taggedTicket "B1" 450 40 (some "CIF") (some "Baled") (some "Rotterdam") none]
          [taggedTicket "S0" 999 0 (some "DAP") none none (some "Shanghai"),
            taggedTicket "S1" 520 40 (some "FAS") none none (some "Busan")]
          (.fin 40) (.fin 450) (.fin 520))
    ∧ (mkOrder "88888" "Copper"
          [taggedTicket "B0" 1 0 (some "FOB") (some "Shredded") (some "Hamburg") none,
            taggedTicket "B1" 450 40 (some "CIF") (some "Baled") (some "Rotterdam") none]
          [taggedTicket "S0" 999 0 (some "DAP") none none (some "Shanghai"),
            taggedTicket "S1" 520 40 (some "FAS") none none (some "Busan")]
          (.fin 40) (.fin 450) (.fin 520)).seller = "S0,S1"
    ∧ (mkOrder "88888" "Copper"
          [taggedTicket "B0" 1 0 (some "FOB") (some "Shredded") (some "Hamburg") none,
            taggedTicket "B1" 450 40 (some "CIF") (some "Baled") (some "Rotterdam") none]
          [taggedTicket "S0" 999 0 (some "DAP") none none (some "Shanghai"),
            taggedTicket "S1" 520 40 (some "FAS") none none (some "Busan")]
          (.fin 40) (.fin 450) (.fin 520)).metal_form = some "Shredded"
    ∧ (mkOrder "88888" "Copper"
          [taggedTicket "B0" 1 0 (some "FOB") (some "Shredded") (some "Hamburg") none,
            taggedTicket "B1" 450 40 (some "CIF") (some "Baled") (some "Rotterdam") none]
          [taggedTicket "S0" 999 0 (some "DAP") none none (some "Shanghai"),
            taggedTicket "S1" 520 40 (some "FAS") none none (some "Busan")]
          (.fin 40) (.fin 450) (.fin 520)).product_details = "FOB / DAP" := by
  have h : jsParseFloatAux "40" = some (false, 40, 0, 0) := by decide
  refine ⟨?_, ?_, ?_, ?_⟩
  · simp only [handleOptimize, jsParseFloat, h]
    norm_num [sortSellsDesc, sortBuysAsc, List.insertionSort, List.orderedInsert,
      calculateTicketPrice, truthy, greedyLoop, tQty, weightedSum, jsDiv, jsGe, taggedTicket]
    simp
  · simp [mkOrder, taggedTicket]
    decide
  · simp [mkOrder, taggedTicket]
  · simp [mkOrder, taggedTicket, orDash]

/-- C8 amended: a zero-remaining-quantity candidate reached while the
target is unfilled is selected with allocation `0`: it is pushed onto the
selection (so its id joins the order's ticket list and, when it sorts
first, it supplies the order metadata) while contributing nothing to the
weighted price sums. -/
theorem C8_amended_zero_qty_included (t : Ticket) (ts : List Ticket) (r : ℚ)
    (hr : 0 < r) (hq : tQty t = 0) :
    greedyLoop r (t :: ts) = ((t, 0) :: (greedyLoop r ts).1, (greedyLoop r ts).2)
    ∧ weightedSum ((t, 0) :: (greedyLoop r ts).1) = weightedSum (greedyLoop r ts).1 := by
  refine ⟨greedyLoop_zero_qty t ts r hr hq, ?_⟩
  simp [weightedSum]

/-- Witness for the amended C8: the zero-quantity ticket `S0` heads the
selection with allocation 0. -/
theorem C8_amended_zero_qty_included_witness :
    ((0 : ℚ) < 40 ∧ tQty (taggedTicket "S0" 999 0 (some "DAP") none none (some "Shanghai")) = 0)
    ∧ greedyLoop 40 [taggedTicket "S0" 999 0 (some "DAP") none none (some "Shanghai"),
        fixedTicket "S1" 520 40]
      = ((taggedTicket "S0" 999 0 (some "DAP") none none (some "Shanghai"), 0)
          :: (greedyLoop 40 [fixedTicket "S1" 520 40]).1,
        (greedyLoop 40 [fixedTicket "S1" 520 40]).2) :=
  ⟨⟨by norm_num, by simp [tQty, taggedTicket]⟩,
    (C8_amended_zero_qty_included _ _ 40 (by norm_num) (by simp [tQty, taggedTicket])).1⟩

/-! ## Claim C9 — net exposure -/

/-- C9: the Exposure Aggregator's net position is the sum over linked
executions of open quantity signed by direction (`+` for Buy, `-`
otherwise), computed from `open_quantity_mt ?? quantity_mt` — the open
quantity, not the original trade quantity; the label is Flat exactly when
`|net| < 0.01`, Long with magnitude `net` when `net ≥ 0.01`, and Short
with magnitude `|net|` when `net ≤ -0.01`. -/
theorem C9_net_exposure (hs : List LinkedHedge) :
    netValue hs
      = (hs.map (fun h => if h.direction = "Buy" then hedgeQty h else -hedgeQty h)).sum
    ∧ ((netExposure hs).2 = .flat ↔ |netValue hs| < 1 / 100)
    ∧ (1 / 100 ≤ netValue hs → netExposure hs = (netValue hs, .long (netValue hs)))
    ∧ (netValue hs ≤ -(1 / 100) → netExposure hs = (netValue hs, .short |netValue hs|)) := by
  refine ⟨netValue_eq_sum hs, ?_, ?_, ?_⟩
  · by_cases hemp : hs = []
    · subst hemp
      unfold netExposure
      rw [if_pos rfl]
      simp [netValue]
    · unfold netExposure
      rw [if_neg hemp]
      by_cases habs : |netValue hs| < 1 / 100
      · rw [if_pos habs]
        simpa using habs
      · rw [if_neg habs]
        by_cases hpos : netValue hs > 0
        · rw [if_pos hpos]
          simpa using habs
        · rw [if_neg hpos]
          simpa using habs
  · intro h
    have hemp : hs ≠ [] := by
      intro he
      rw [he] at h
      simp [netValue] at h
      linarith
    have hnetpos : 0 < netValue hs := by linarith
    have habs : ¬ |netValue hs| < 1 / 100 := by
      rw [abs_of_pos hnetpos]
      linarith
    unfold netExposure
    rw [if_neg hemp, if_neg habs, if_pos hnetpos]
  · intro h
    have hemp : hs ≠ [] := by
      intro he
      rw [he] at h
      simp [netValue] at h
      linarith
    have hnetneg : netValue hs < 0 := by linarith
    have habs : ¬ |netValue hs| < 1 / 100 := by
      rw [abs_of_neg hnetneg]
      linarith
    have hpos : ¬ netValue hs > 0 := by linarith
    unfold netExposure
    rw [if_neg hemp, if_neg habs, if_neg hpos]

/-- Witness for C9: a Buy execution with open quantity 25 and a Sell
execution with open quantity 10 net to Long 15. -/
theorem C9_net_exposure_witness :
    (1 : ℚ) / 100 ≤
      netValue [⟨"H1", "Buy", 40, some 25⟩, ⟨"H2", "Sell", 40, some 10⟩]
    ∧ netExposure [⟨"H1", "Buy", 40, some 25⟩, ⟨"H2", "Sell", 40, some 10⟩]
      = (netValue [⟨"H1", "Buy", 40, some 25⟩, ⟨"H2", "Sell", 40, some 10⟩],
        .long (netValue [⟨"H1", "Buy", 40, some 25⟩, ⟨"H2", "Sell", 40, some 10⟩])) :=
  ⟨by simp [netValue, hedgeQty]; norm_num,
    (C9_net_exposure _).2.2.1 (by simp [netValue, hedgeQty]; norm_num)⟩

/-! ## Claim C10 — truthiness of zero-valued pricing fields -/

/-- C10: `calculateTicketPrice` tests field presence by truthiness, so an
Index ticket whose reference price or premium/discount is exactly `0`
prices at `0` (not `reference + 0`), a Formula ticket whose reference
price or payable percent is exactly `0` prices at `0`, and a zero-valued
premium/discount is indistinguishable from a missing one. -/
theorem C10_truthiness_zero_fields (t : Ticket) :
    (t.pricing_type = "Index" →
      t.lme_price = some 0 ∨ t.premium_discount = some 0 → calculateTicketPrice t = 0)
    ∧ (t.pricing_type = "Formula" →
      t.lme_price = some 0 ∨ t.payable_percent = some 0 → calculateTicketPrice t = 0)
    ∧ (t.pricing_type = "Index" →
      calculateTicketPrice { t with premium_discount := some 0 }
        = calculateTicketPrice { t with premium_discount := none }) := by
  refine ⟨?_, ?_, ?_⟩
  · intro ht h
    rcases h with h | h <;> simp [calculateTicketPrice, ht, truthy, h]
  · intro ht h
    rcases h with h | h <;> simp [calculateTicketPrice, ht, truthy, h]
  · intro ht
    simp [calculateTicketPrice, ht, truthy]

/-- Witness for C10: an Index ticket with reference price 1800 and
premium/discount exactly 0 prices at 0 rather than 1800. -/
theorem C10_truthiness_zero_fields_witness :
    calculateTicketPrice
      { id := "T1", pricing_type := "Index", signed_price := none,
        lme_price := some 1800, payable_percent := none,
        premium_discount := some 0, quantity := some 10, incoterms := none,
        metal_form := none, isri_grade := none, ship_from := none,
        ship_to := none } = 0 :=
  (C10_truthiness_zero_fields _).1 rfl (Or.inr rfl)

end Mvp
